import Mathlib

/-!
# Verification of the incremental crawl engine of `social_media_spider`

Shallow embedding of the crawl-engine logic of the repository, translated
from the Python sources:

* `src/spiders/jike/main.py`   — `JikeSpider` (token-pair credential manager,
  opaque-cursor pagination: `refresh_access_token`, `get_jike_data`,
  `get_last_id_from_response`, `get_all_jike_data`);
* `src/spiders/weibo/spider.py` — `Spider` (page-number pagination, backoff
  scheduler, watermark commit, sink fan-out: `write_weibo`, `get_user_info`,
  `initialize_info`, `get_weibo_info`, `get_one_user`, `start`);
* `src/spiders/weibo/config_util.py` — `update_user_config_file` (watermark
  store).

Network responses are supplied by explicit oracles so that every code path
of the Python control flow becomes a computable Lean function; traces record
the requests actually issued, which lets the theorems count fetches and
refresh attempts exactly.
-/

namespace Jike

/-- Python truthiness of a string: `None` and `""` are falsy.  Used wherever
the source writes `if some_str:` on an optional string. -/
def truthyStr : Option String → Bool
  | none => false
  | some s => s ≠ ""

/-- The pair of tokens held in memory (`self.access_token`,
`self.refresh_token`) together with the pair last persisted by
`save_config` (the contents of `jike_config.json`). -/
structure JikeState where
  access_token : String
  refresh_token : String
  saved_access : String
  saved_refresh : String
deriving DecidableEq, Repr

/-- Response to the refresh POST (`app_auth_tokens.refresh`): a network
failure (`requests.RequestException`), or an HTTP status code plus the
optional `x-jike-access-token` / `x-jike-refresh-token` response headers. -/
inductive RefreshResp where
  | netErr
  | resp (code : Nat) (accessHdr refreshHdr : Option String)
deriving DecidableEq, Repr

/-- `JikeSpider.refresh_access_token` (src/spiders/jike/main.py lines 62-92).
`response.raise_for_status()` turns any 4xx/5xx status into a
`RequestException`, caught by the function itself, which then returns
`False`.  Otherwise both token headers must be truthy; then both in-memory
tokens are replaced and `save_config` persists them, returning `True`.
If either header is missing or empty the function returns `False` and the
state is untouched. -/
def refresh_access_token (r : RefreshResp) (s : JikeState) : JikeState × Bool :=
  match r with
  | .netErr => (s, false)
  | .resp code a b =>
    if 400 ≤ code ∧ code < 600 then (s, false)
    else if truthyStr a ∧ truthyStr b then
      match a, b with
      | some na, some nb => (⟨na, nb, na, nb⟩, true)
      | _, _ => (s, false)
    else (s, false)

/-- A post of the `personalUpdate/single` page: the `data` list of items
(modelled by opaque numeric ids) and `loadMoreKey.lastId`. -/
structure JikePage where
  data : List Nat
  lastId : Option String
deriving DecidableEq, Repr

/-- Response to one data POST: network failure or status code plus parsed
JSON body. -/
inductive DataResp where
  | netErr
  | resp (code : Nat) (page : JikePage)
deriving DecidableEq, Repr

/-- Environment oracle: `dataResp n tok lid` is the response to the `n`-th
data request of the run (0-based), sent with access token `tok` and cursor
`lid`; `refreshResp k` is the response to the `k`-th refresh request. -/
structure Oracle where
  dataResp : Nat → String → Option String → DataResp
  refreshResp : Nat → RefreshResp

/-- Trace of outbound requests: for each data request the access token and
cursor it carried, in order, plus the number of refresh requests issued. -/
structure Trace where
  dataCalls : List (String × Option String)
  refreshCalls : Nat
deriving DecidableEq, Repr

/-- The empty trace at the start of a run. -/
def Trace.empty : Trace := ⟨[], 0⟩

/-- Result of `get_jike_data`: the parsed page, `None` (network/HTTP error
swallowed by the `except requests.RequestException` clause), or a raised
`Exception` with its message. -/
inductive FetchResult where
  | ok (page : JikePage)
  | noResult
  | authError (msg : String)
deriving DecidableEq, Repr

/-- Message of the `Exception` raised when the retried request still
returns 401 (main.py line 126). -/
def msgStillInvalid : String := "Token已失效，无法刷新。请提供有效的access_token和refresh_token"

/-- Message of the `Exception` raised when the refresh call fails
(main.py line 128). -/
def msgRefreshFailed : String := "Token刷新失败，请提供有效的access_token和refresh_token"

/-- `JikeSpider.get_jike_data` (src/spiders/jike/main.py lines 94-136).
Posts the data request with the current access token; on a 401 status it
calls `refresh_access_token` once and, if that succeeds, re-posts the same
request with the new token.  A 401 on the retry, or a failed refresh,
raises an `Exception` (not a `RequestException`, so it escapes the
`except` clause).  Any `RequestException` — network error, or a non-401
error status via `raise_for_status()` — yields `None`. -/
def get_jike_data (o : Oracle) (last_id : Option String) (s : JikeState) (t : Trace) :
    JikeState × Trace × FetchResult :=
  let t1 : Trace := ⟨t.dataCalls ++ [(s.access_token, last_id)], t.refreshCalls⟩
  match o.dataResp t.dataCalls.length s.access_token last_id with
  | .netErr => (s, t1, .noResult)
  | .resp code page =>
    if code = 401 then
      let rs := refresh_access_token (o.refreshResp t1.refreshCalls) s
      let t2 : Trace := ⟨t1.dataCalls, t1.refreshCalls + 1⟩
      if rs.2 then
        let s2 := rs.1
        let t3 : Trace := ⟨t2.dataCalls ++ [(s2.access_token, last_id)], t2.refreshCalls⟩
        match o.dataResp t2.dataCalls.length s2.access_token last_id with
        | .netErr => (s2, t3, .noResult)
        | .resp code2 page2 =>
          if code2 = 401 then (s2, t3, .authError msgStillInvalid)
          else if 400 ≤ code2 ∧ code2 < 600 then (s2, t3, .noResult)
          else (s2, t3, .ok page2)
      else (rs.1, t2, .authError msgRefreshFailed)
    else if 400 ≤ code ∧ code < 600 then (s, t1, .noResult)
    else (s, t1, .ok page)

/-- Whether `pat` occurs as a contiguous run inside the second list
(Python's `in` on strings, over explicit character lists). -/
def charsInfix (pat : List Char) : List Char → Bool
  | [] => pat.isEmpty
  | c :: tl => pat.isPrefixOf (c :: tl) || charsInfix pat tl

/-- The test `"token" in str(e).lower() or "401" in str(e)` of
`get_all_jike_data` (main.py line 193), deciding whether a caught
exception is re-raised. -/
def tokenRelated (msg : String) : Bool :=
  charsInfix "token".data (msg.data.map Char.toLower) || charsInfix "401".data msg.data

/-- The `while page <= max_pages` loop of `JikeSpider.get_all_jike_data`
(src/spiders/jike/main.py lines 163-197), with `fuel` the number of page
slots still allowed (`max_pages - page + 1`).  A `None` fetch result, an
empty `data` list, or a non-truthy `lastId` each `break` the loop, which
then returns everything accumulated; a raised token-related exception is
re-raised (`Except.error`), any other exception would break (the only
exceptions reaching the handler are the two token messages). -/
def get_all_loop (o : Oracle) (s : JikeState) (t : Trace) (all : List Nat)
    (last_id : Option String) : Nat → JikeState × Trace × Except String (List Nat)
  | 0 => (s, t, .ok all)
  | fuel + 1 =>
    match get_jike_data o last_id s t with
    | (s1, t1, .authError msg) =>
      if tokenRelated msg then (s1, t1, .error msg) else (s1, t1, .ok all)
    | (s1, t1, .noResult) => (s1, t1, .ok all)
    | (s1, t1, .ok page) =>
      if page.data.isEmpty then (s1, t1, .ok all)
      else
        let all2 := all ++ page.data
        if truthyStr page.lastId then
          match page.lastId with
          | some lid => get_all_loop o s1 t1 all2 (some lid) fuel
          | none => (s1, t1, .ok all2)
        else (s1, t1, .ok all2)

/-- `JikeSpider.get_all_jike_data` (src/spiders/jike/main.py lines 147-200):
runs the page loop from page 1 with no cursor and an empty trace. -/
def get_all_jike_data (o : Oracle) (s : JikeState) (max_pages : Nat) :
    JikeState × Trace × Except String (List Nat) :=
  get_all_loop o s Trace.empty [] none max_pages

end Jike

namespace Weibo

/-- One global-wait tier, `(pageCountThreshold, waitSeconds)` — an entry of
the `global_wait` config list. -/
abbrev Tier := Nat × Nat

/-- The in-loop global wait of `Spider.get_weibo_info`
(src/spiders/weibo/spider.py lines 221-229): when the running page counter
has reached the head tier's threshold (`>=`), sleep that tier's wait
seconds, reset the counter to zero and move the head tier to the tail
(`self.global_wait.append(self.global_wait.pop(0))`).  Returns the new
counter, the new schedule and the seconds slept (if any).  On an empty
schedule the source would raise `IndexError`; the config validator
guarantees a non-empty list, modelled here as a no-op. -/
def globalWaitStep (page_count : Nat) (gw : List Tier) : Nat × List Tier × Option Nat :=
  match gw with
  | [] => (page_count, [], none)
  | (thr, w) :: rest =>
    if thr ≤ page_count then (0, rest ++ [(thr, w)], some w)
    else (page_count, (thr, w) :: rest, none)

/-- A run of `n` consecutive page fetches against the backoff state: each
fetch increments the counter by one (spider.py line 207) and then applies
`globalWaitStep`.  Returns the final counter, the final schedule and the
list of global waits slept, in order. -/
def fetchSeq : Nat → Nat → List Tier → Nat × List Tier × List Nat
  | 0, pc, gw => (pc, gw, [])
  | n + 1, pc, gw =>
    let step := globalWaitStep (pc + 1) gw
    let rest := fetchSeq n step.1 step.2.1
    (rest.1, rest.2.1, step.2.2.toList ++ rest.2.2)

/-- Mutable spider state threaded through a run (fields of the `Spider`
object, plus a model clock that advances by one on every remote fetch —
standing in for wall-clock time so that "now resolved at time t" is
observable). -/
structure WbState where
  page_count : Nat
  global_wait : List Tier
  got_num : Nat
  weibo_id_list : List Nat
  new_since_date : String
  clock : Nat
deriving DecidableEq, Repr

/-- The model rendering of `datetime.now().strftime("%Y-%m-%d %H:%M")` at
model time `t`. -/
def nowString (t : Nat) : String := "now@" ++ toString t

/-- Run-level configuration of the `Spider` object, reduced to the fields
the engine consults: `end_date`, whether a user-config file path (or the
`FLAGS.u` override) makes the watermark commit reachable, and the number
of configured sinks (writers followed by downloaders). -/
structure WbConfig where
  end_date : String
  commitEnabled : Bool
  nsinks : Nat

/-- Outcome of one remote parser call: a parsed value, or a raised
exception. -/
inductive ParseOutcome (α : Type) where
  | ok (a : α)
  | err
deriving DecidableEq, Repr

/-- Scripted content of one page as `PageParser` would report it: the weibo
ids on the page in order, and the continuation flag `to_continue`. -/
structure PageData where
  ids : List Nat
  toContinue : Bool
deriving DecidableEq, Repr

/-- Environment script for one crawl target: the behaviour of every remote
call made on its behalf, plus which sink raises on which batch. -/
structure TargetScript where
  user_uri : String
  userInfoErr : Bool
  since_le_now : Bool
  pageNumResult : ParseOutcome Nat
  pages : Nat → ParseOutcome PageData
  sinkRaises : Nat → Nat → Bool

/-- The watermark store: the `user_id_list.txt` contents as an association
list `user_uri ↦ since_date`. -/
abbrev Store := List (String × String)

/-- `config_util.update_user_config_file`
(src/spiders/weibo/config_util.py lines 138-162) at the store level: the
line whose first field equals `uri` gets its since_date field replaced by
`v`; every other line is untouched. -/
def update_user_config_file (store : Store) (uri v : String) : Store :=
  store.map (fun p => if p.1 = uri then (p.1, v) else p)

/-- Modelled from the spec: `PageParser.get_one_page`
(src/spiders/weibo/parser/page_parser.py is absent from src/; only its
call site at spider.py line 194 is present).  Per the spec's SeenIdSet
contract, records whose ids are already in the set passed in are dropped
and the set is returned extended with the page's ids.  Returns the
surviving weibos (their ids) and the updated id list. -/
def get_one_page (pd : PageData) (seen : List Nat) : List Nat × List Nat :=
  let step := pd.ids.foldl
    (fun (acc : List Nat × List Nat) i =>
      if acc.2.contains i then acc else (acc.1 ++ [i], acc.2 ++ [i]))
    ([], seen)
  step

/-- `Spider.write_weibo` dispatch (src/spiders/weibo/spider.py lines
141-146): the batch is handed to each sink in index order with no per-sink
exception handling, so the first sink that raises stops the loop and the
exception propagates.  `dispatchFrom raises k n` runs sinks `k, k+1, …`
(`n` remaining) and returns the indices that received the batch and
whether one of them raised. -/
def dispatchFrom (raises : Nat → Bool) : Nat → Nat → List Nat × Bool
  | _, 0 => ([], false)
  | k, n + 1 =>
    if raises k then ([k], true)
    else
      let rest := dispatchFrom raises (k + 1) n
      (k :: rest.1, rest.2)

/-- `Spider.write_weibo` for batch index `b` under sink script `raises`
with `n` configured sinks. -/
def write_weibo (raises : Nat → Nat → Bool) (n b : Nat) : List Nat × Bool :=
  dispatchFrom (raises b) 0 n

/-- How a target's page loop ended. -/
inductive LoopExit where
  | completed
  | parserErr
  | sinkRaise
deriving DecidableEq, Repr

/-- Result of the page loop: final spider state, the dispatched batches
(each with the sink indices it reached), and how the loop ended. -/
structure PageLoopResult where
  st : WbState
  dispatches : List (List Nat × List Nat)
  exit : LoopExit
deriving DecidableEq, Repr

/-- `Spider.get_user_info` (spider.py lines 153-156): one `IndexParser`
fetch (clock advances); on success `self.page_count += 1`. -/
def get_user_info (ts : TargetScript) (st : WbState) : WbState × Bool :=
  let st1 := { st with clock := st.clock + 1 }
  if ts.userInfoErr then (st1, false)
  else ({ st1 with page_count := st1.page_count + 1 }, true)

/-- `Spider.initialize_info` (spider.py lines 263-271, state-relevant
part): reset the fetched-item counter and the per-run id list, and set
`new_since_date` to `end_date`, or to "now" rendered at the current model
time when `end_date` is the literal `"now"`.  (The writer/downloader
construction of lines 272-328 is captured by `WbConfig.nsinks`.) -/
def initialize_info (cfg : WbConfig) (st : WbState) : WbState :=
  { st with
      got_num := 0
      weibo_id_list := []
      new_since_date := if cfg.end_date = "now" then nowString st.clock else cfg.end_date }

/-- The pre-loop global wait of `Spider.get_weibo_info` (spider.py lines
176-190): after the `get_page_num` fetch increments the counter, if the
counter exceeds 2 and counter + page_num exceeds the head threshold, sleep
a scaled duration, zero the counter and rotate the head tier to the tail.
Only the state effects are modelled; the scaled sleep duration is not
recorded. -/
def preLoopWait (page_num : Nat) (st : WbState) : WbState :=
  match st.global_wait with
  | [] => st
  | (thr, w) :: rest =>
    if 2 < st.page_count ∧ thr < st.page_count + page_num then
      { st with page_count := 0, global_wait := rest ++ [(thr, w)] }
    else st

/-- The `for page in range(1, page_num + 1)` loop of
`Spider.get_weibo_info` (spider.py lines 193-229) interleaved with the
consumer loop of `get_one_user` (lines 345-347): fetch the page (clock
advances; a parser exception ends the generator via its `except` clause),
increment the page counter, drop already-seen ids, dispatch a non-empty
batch to the sinks and add its size to `got_num` (a sink raise propagates
to `get_one_user`, abandoning the generator), stop when `to_continue` is
false, otherwise apply the in-loop global wait and continue.  The random
micro-jitter of lines 216-219 sleeps without touching any spider state and
is not modelled.  `page` is the 1-based index of the next page; `fuel`
counts the pages still to fetch; `acc` accumulates `(batch, sink indices
reached)` per dispatched batch. -/
def pageLoop (ts : TargetScript) (nsinks : Nat) :
    Nat → Nat → WbState → List (List Nat × List Nat) → PageLoopResult
  | _, 0, st, acc => ⟨st, acc, .completed⟩
  | page, fuel + 1, st, acc =>
    match ts.pages page with
    | .err => ⟨{ st with clock := st.clock + 1 }, acc, .parserErr⟩
    | .ok pd =>
      let st1 := { st with clock := st.clock + 1 }
      let st2 := { st1 with page_count := st1.page_count + 1 }
      let parsed := get_one_page pd st2.weibo_id_list
      let st3 := { st2 with weibo_id_list := parsed.2 }
      let weibos := parsed.1
      if weibos.isEmpty then
        if pd.toContinue then
          let gws := globalWaitStep st3.page_count st3.global_wait
          pageLoop ts nsinks (page + 1) fuel
            { st3 with page_count := gws.1, global_wait := gws.2.1 } acc
        else ⟨st3, acc, .completed⟩
      else
        let disp := write_weibo ts.sinkRaises nsinks acc.length
        let acc2 := acc ++ [(weibos, disp.1)]
        if disp.2 then ⟨st3, acc2, .sinkRaise⟩
        else
          let st4 := { st3 with got_num := st3.got_num + weibos.length }
          if pd.toContinue then
            let gws := globalWaitStep st4.page_count st4.global_wait
            pageLoop ts nsinks (page + 1) fuel
              { st4 with page_count := gws.1, global_wait := gws.2.1 } acc2
          else ⟨st4, acc2, .completed⟩

/-- How one target's crawl ended: clean completion (the only exit through
the commit point), a failed user-info fetch, a parser exception absorbed
by the generator's `except` clause, or a sink exception absorbed by
`get_one_user`'s `except` clause. -/
inductive TExit where
  | done
  | userInfoFailed
  | parserErrored
  | sinkAborted
deriving DecidableEq, Repr

/-- Everything observable about one target's crawl: dispatched batches
(with the sink indices each reached), the watermark value passed to
`update_user_config_file` (if it was called at all), the exit kind, and
the number of remote fetches issued for this target. -/
structure TargetResult where
  uri : String
  dispatches : List (List Nat × List Nat)
  commitCall : Option String
  exit : TExit
  fetches : Nat
deriving DecidableEq, Repr

/-- Result of `get_weibo_info`: spider state, watermark store, dispatched
batches, the commit call (if made), and the loop exit kind. -/
structure InfoResult where
  st : WbState
  store : Store
  dispatches : List (List Nat × List Nat)
  commitCall : Option String
  exit : LoopExit
deriving DecidableEq, Repr

/-- `Spider.get_weibo_info` (spider.py lines 166-240) driven by
`get_one_user`'s consumer loop: skip everything when `since_date > now`;
otherwise fetch the page count (clock advances, counter increments on
success), apply the pre-loop global wait, run the page loop, and — only
when the loop ran to a terminal non-error stop — call
`update_user_config_file` with `new_since_date`, provided the commit path
is configured (`self.user_config_file_path or FLAGS.u`).  Parser
exceptions are caught by the generator's own `except` clause (no commit,
target otherwise ends quietly); a sink raise escapes to `get_one_user`'s
handler (no commit). -/
def get_weibo_info (cfg : WbConfig) (ts : TargetScript) (st : WbState) (store : Store) :
    InfoResult :=
  if ts.since_le_now then
    match ts.pageNumResult with
    | .err => ⟨{ st with clock := st.clock + 1 }, store, [], none, .parserErr⟩
    | .ok page_num =>
      let st1 := { st with clock := st.clock + 1, page_count := st.page_count + 1 }
      let st2 := preLoopWait page_num st1
      let res := pageLoop ts cfg.nsinks 1 page_num st2 []
      match res.exit with
      | .completed =>
        if cfg.commitEnabled then
          ⟨res.st, update_user_config_file store ts.user_uri res.st.new_since_date,
            res.dispatches, some res.st.new_since_date, .completed⟩
        else ⟨res.st, store, res.dispatches, none, .completed⟩
      | .parserErr => ⟨res.st, store, res.dispatches, none, .parserErr⟩
      | .sinkRaise => ⟨res.st, store, res.dispatches, none, .sinkRaise⟩
  else ⟨st, store, [], none, .completed⟩

/-- Result of `get_one_user` for one target, together with the spider
state and the store it leaves behind. -/
structure UserRunResult where
  st : WbState
  store : Store
  result : TargetResult
deriving DecidableEq, Repr

/-- `Spider.get_one_user` (spider.py lines 330-355): fetch the user info
(abort the target on failure — the whole body sits in a `try/except`),
reset the per-target state with `initialize_info`, then run the
fetch/dispatch loop.  Every exception is caught here or inside the
generator, so the function is total; the result records which abnormal
path, if any, was taken. -/
def get_one_user (cfg : WbConfig) (ts : TargetScript) (st : WbState) (store : Store) :
    UserRunResult :=
  let clock0 := st.clock
  let ui := get_user_info ts st
  if ui.2 then
    let st1 := initialize_info cfg ui.1
    let res := get_weibo_info cfg ts st1 store
    ⟨res.st, res.store,
      { uri := ts.user_uri
        dispatches := res.dispatches
        commitCall := res.commitCall
        exit := match res.exit with
          | .completed => .done
          | .parserErr => .parserErrored
          | .sinkRaise => .sinkAborted
        fetches := res.st.clock - clock0 }⟩
  else
    ⟨ui.1, store,
      { uri := ts.user_uri
        dispatches := []
        commitCall := none
        exit := .userInfoFailed
        fetches := ui.1.clock - clock0 }⟩

/-- Result of a whole run over the target list. -/
structure RunResult where
  st : WbState
  store : Store
  results : List TargetResult
deriving DecidableEq, Repr

/-- The target iteration of `Spider.start` (spider.py lines 357-376):
targets are crawled strictly in list order, each through `get_one_user`
(whose catch-all `except` contains any per-target failure, so iteration
always reaches the next target); the inter-user random waits touch no
spider state and are not modelled.  `start`'s own `try/except` has
nothing left to catch, which the totality of this function reflects. -/
def runTargets (cfg : WbConfig) :
    List TargetScript → WbState → Store → RunResult
  | [], st, store => ⟨st, store, []⟩
  | ts :: rest, st, store =>
    let r := get_one_user cfg ts st store
    let tail := runTargets cfg rest r.st r.store
    ⟨tail.st, tail.store, r.result :: tail.results⟩

end Weibo

/-! ## Concrete run instances used by the witnesses and counterexamples -/

namespace Jike

/-- A token state at the start of a run. -/
def jstate0 : JikeState := ⟨"A", "R", "A", "R"⟩

/-- Oracle of the spec's opaque-cursor scenario: the first data request
returns 20 items and cursor "abc", the second returns an empty page with
no cursor.  No refresh endpoint is ever consulted. -/
def oracleTwoPages : Oracle where
  dataResp n _ _ :=
    if n = 0 then .resp 200 ⟨List.range 20, some "abc"⟩ else .resp 200 ⟨[], none⟩
  refreshResp _ := .netErr

/-- Oracle for the successful-refresh path: the first data request returns
401, the refresh supplies a fresh token pair, and the retried request
(carrying the new access token "NA") succeeds with two items. -/
def oracleRefreshOk : Oracle where
  dataResp n tok _ :=
    if n = 0 then .resp 401 ⟨[], none⟩
    else if tok = "NA" then .resp 200 ⟨[1, 2], none⟩
    else .resp 500 ⟨[], none⟩
  refreshResp _ := .resp 200 (some "NA") (some "NR")

/-- Oracle for the failed-refresh path: every data request returns 401 and
the refresh endpoint is unreachable. -/
def oracleRefreshFail : Oracle where
  dataResp _ _ _ := .resp 401 ⟨[], none⟩
  refreshResp _ := .netErr

/-- Oracle for the still-expired path: every data request returns 401 even
after a successful refresh. -/
def oracleStill401 : Oracle where
  dataResp _ _ _ := .resp 401 ⟨[], none⟩
  refreshResp _ := .resp 200 (some "NA") (some "NR")

/-- Oracle in which every request fails with a transient network error. -/
def oracleNetErr : Oracle where
  dataResp _ _ _ := .netErr
  refreshResp _ := .netErr

end Jike

namespace Weibo

/-- A run configuration: `end_date = "now"`, commit path configured, two
sinks. -/
def cfgNow : WbConfig := ⟨"now", true, 2⟩

/-- Spider state at the start of a run: the spec's example schedule
`[(5, 10), (10, 20)]`. -/
def stW0 : WbState := ⟨0, [(5, 10), (10, 20)], 0, [], "", 0⟩

/-- Watermark store with two configured targets. -/
def storeW0 : Store := [("u1", "2024-01-01"), ("u2", "2024-01-01")]

/-- A target that crawls cleanly: two pages, ids `[1, 2]` and `[2, 3]`
(id 2 overlaps), no failure anywhere. -/
def tsClean : TargetScript where
  user_uri := "u1"
  userInfoErr := false
  since_le_now := true
  pageNumResult := .ok 2
  pages p := if p = 1 then .ok ⟨[1, 2], true⟩ else .ok ⟨[2, 3], true⟩
  sinkRaises _ _ := false

/-- A target whose first batch makes sink 0 raise; pages 1 and 2 both
exist and want to continue. -/
def tsSinkRaise : TargetScript where
  user_uri := "u2"
  userInfoErr := false
  since_le_now := true
  pageNumResult := .ok 2
  pages p := if p = 1 then .ok ⟨[7, 8], true⟩ else .ok ⟨[9], true⟩
  sinkRaises b k := b = 0 ∧ k = 0

/-- A ten-page target whose parser raises on page 3 — the spec's
"fatal on page 3 of 10" scenario. -/
def tsParserErr : TargetScript where
  user_uri := "u1"
  userInfoErr := false
  since_le_now := true
  pageNumResult := .ok 10
  pages p := if p < 3 then .ok ⟨[10 + p], true⟩ else .err
  sinkRaises _ _ := false

/-- A target whose user-info fetch raises at once. -/
def tsUserErr : TargetScript where
  user_uri := "u0"
  userInfoErr := true
  since_le_now := true
  pageNumResult := .ok 1
  pages _ := .ok ⟨[], false⟩
  sinkRaises _ _ := false

/-- First target of the dedup-scoping run: one page carrying ids 5 and 6. -/
def tsDedupA : TargetScript where
  user_uri := "u1"
  userInfoErr := false
  since_le_now := true
  pageNumResult := .ok 1
  pages _ := .ok ⟨[5, 6], false⟩
  sinkRaises _ _ := false

/-- Second target of the dedup-scoping run: its only page carries id 5
again, already seen while crawling the first target. -/
def tsDedupB : TargetScript where
  user_uri := "u2"
  userInfoErr := false
  since_le_now := true
  pageNumResult := .ok 1
  pages p := if p = 1 then .ok ⟨[5], false⟩ else .err
  sinkRaises _ _ := false

end Weibo

namespace Weibo

/-- The schedule produced by one `globalWaitStep` is a rotation of the
schedule it was given. -/
lemma globalWaitStep_isRotated (pc : Nat) (gw : List Tier) :
    (globalWaitStep pc gw).2.1 ~r gw := by
  match gw with
  | [] => simp [globalWaitStep]
  | (thr, w) :: rest =>
    simp only [globalWaitStep]
    split
    · exact List.isRotated_concat (thr, w) rest
    · exact List.IsRotated.refl _

/-- The schedule after any run of fetches is a rotation of the starting
schedule. -/
lemma fetchSeq_isRotated (n : Nat) (pc : Nat) (gw : List Tier) :
    (fetchSeq n pc gw).2.1 ~r gw := by
  induction n generalizing pc gw with
  | zero => exact List.IsRotated.refl _
  | succ n ih =>
    simp only [fetchSeq]
    exact (ih _ _).trans (globalWaitStep_isRotated (pc + 1) gw)

/-- The schedule after the pre-loop global wait is a rotation of the
schedule before it. -/
lemma preLoopWait_isRotated (pn : Nat) (st : WbState) :
    (preLoopWait pn st).global_wait ~r st.global_wait := by
  unfold preLoopWait
  split
  · exact List.IsRotated.refl _
  · next thr w rest heq =>
    split
    · rw [heq]
      exact List.isRotated_concat (thr, w) rest
    · exact List.IsRotated.refl _

/-- C2: whenever the running page counter reaches the threshold of the
backoff schedule's head tier, the engine sleeps exactly that tier's wait
duration, resets the counter to zero, and moves that tier to the tail of
the schedule list; the schedule after any run of fetches — and after the
pre-loop global wait — is a rotation of the configured tiers, never
consumed one-shot. -/
theorem backoff_fires_and_rotates (pc thr w n pn : Nat) (rest gw : List Tier)
    (st : WbState) :
    (gw = (thr, w) :: rest → thr ≤ pc →
      globalWaitStep pc gw = (0, rest ++ [(thr, w)], some w)) ∧
    (fetchSeq n pc gw).2.1 ~r gw ∧
    (preLoopWait pn st).global_wait ~r st.global_wait := by
  refine ⟨?_, fetchSeq_isRotated n pc gw, preLoopWait_isRotated pn st⟩
  rintro rfl hle
  simp [globalWaitStep, hle]

theorem backoff_fires_and_rotates_witness :
    globalWaitStep 5 [(5, 10), (10, 20)] = (0, [(10, 20), (5, 10)], some 10) ∧
    (fetchSeq 16 0 [(5, 10), (10, 20)]).2.1 ~r [(5, 10), (10, 20)] ∧
    (fetchSeq 16 0 [(5, 10), (10, 20)]).2.2 = [10, 20] :=
  ⟨(backoff_fires_and_rotates 5 5 10 16 0 [(10, 20)] [(5, 10), (10, 20)] stW0).1
      rfl (by decide),
   (backoff_fires_and_rotates 0 5 10 16 0 [(10, 20)] [(5, 10), (10, 20)] stW0).2.1,
   by decide⟩

end Weibo

namespace Jike

/-- C6: the token refresh updates and persists both stored tokens exactly
when the refresh response carries both a (truthy) new access token and a
(truthy) new refresh token and no HTTP error status; in every other case —
missing header, error status, network failure — it reports failure and
leaves the stored pair exactly as it was, never partially updated. -/
theorem refresh_atomic_pair (r : RefreshResp) (s : JikeState) :
    (∀ code na nb, r = .resp code (some na) (some nb) → ¬(400 ≤ code ∧ code < 600) →
      na ≠ "" → nb ≠ "" →
      refresh_access_token r s = (⟨na, nb, na, nb⟩, true)) ∧
    ((refresh_access_token r s).2 = false → (refresh_access_token r s).1 = s) ∧
    ((refresh_access_token r s).2 = true →
      ∃ code na nb, r = .resp code (some na) (some nb) ∧ ¬(400 ≤ code ∧ code < 600) ∧
        na ≠ "" ∧ nb ≠ "" ∧ (refresh_access_token r s).1 = ⟨na, nb, na, nb⟩) := by
  refine ⟨?_, ?_, ?_⟩
  · rintro code na nb rfl hcode hna hnb
    simp [refresh_access_token, truthyStr, hcode, hna, hnb]
  · match r with
    | .netErr => intro; rfl
    | .resp code a b =>
      simp only [refresh_access_token]
      split
      · intro; rfl
      · split
        · next h =>
          match a, b with
          | some na, some nb => simp
          | none, _ => simp [truthyStr] at h
          | some _, none => simp [truthyStr] at h
        · intro; rfl
  · match r with
    | .netErr => intro h; simp [refresh_access_token] at h
    | .resp code a b =>
      simp only [refresh_access_token]
      split
      · intro h; simp at h
      · split
        · next h =>
          match a, b with
          | some na, some nb =>
            intro _
            refine ⟨code, na, nb, rfl, by assumption, ?_, ?_, rfl⟩
            · simpa [truthyStr] using h.1
            · simpa [truthyStr] using h.2
          | none, _ => simp [truthyStr] at h
          | some _, none => simp [truthyStr] at h
        · intro h; simp at h

theorem refresh_atomic_pair_witness :
    refresh_access_token (.resp 200 (some "NA") (some "NR")) jstate0 =
      (⟨"NA", "NR", "NA", "NR"⟩, true) ∧
    ((refresh_access_token (.resp 200 (some "NA") none) jstate0).2 = false →
      (refresh_access_token (.resp 200 (some "NA") none) jstate0).1 = jstate0) :=
  ⟨(refresh_atomic_pair (.resp 200 (some "NA") (some "NR")) jstate0).1 200 "NA" "NR" rfl
      (by decide) (by decide) (by decide),
   (refresh_atomic_pair (.resp 200 (some "NA") none) jstate0).2.1⟩

end Jike

namespace Jike

/-- C9 counterexample: with an oracle whose every request fails with a
transient network error, a ten-page crawl issues exactly one data request,
performs no retry of the failed page and no refresh, and gives the page
up, returning the (empty) accumulation — there is no fetch-layer retry,
bounded or configurable. -/
theorem transient_not_retried_cex :
    get_all_jike_data oracleNetErr jstate0 10 =
      (jstate0, ⟨[("A", none)], 0⟩, .ok []) := by
  rfl

/-- C9 amended: a transient network error on a fetch is not retried at
all: `get_jike_data` immediately returns no result after the single
failed request, the page loop treats this as terminal for the target and
returns the items accumulated so far, and neither the auth-refresh nor
any backoff machinery is invoked (the refresh counter is unchanged). -/
theorem transient_gives_up_immediately (o : Oracle) (s : JikeState) (t : Trace)
    (all : List Nat) (lid : Option String) (fuel : Nat)
    (h : o.dataResp t.dataCalls.length s.access_token lid = .netErr) :
    get_jike_data o lid s t =
      (s, ⟨t.dataCalls ++ [(s.access_token, lid)], t.refreshCalls⟩, .noResult) ∧
    get_all_loop o s t all lid (fuel + 1) =
      (s, ⟨t.dataCalls ++ [(s.access_token, lid)], t.refreshCalls⟩, .ok all) := by
  have h1 : get_jike_data o lid s t =
      (s, ⟨t.dataCalls ++ [(s.access_token, lid)], t.refreshCalls⟩, .noResult) := by
    simp [get_jike_data, h]
  refine ⟨h1, ?_⟩
  simp [get_all_loop, h1]

theorem transient_gives_up_immediately_witness :
    get_all_loop oracleNetErr jstate0 Trace.empty [] none 10 =
      (jstate0, ⟨[("A", none)], 0⟩, .ok []) := by
  have := transient_gives_up_immediately oracleNetErr jstate0 Trace.empty [] none 9 rfl
  simpa [Trace.empty, jstate0] using this.2

end Jike

namespace Jike

/-- C5: for the opaque-cursor strategy a page with an empty item list, or
one supplying no continuation token, is a terminal non-error stop that
returns everything accumulated so far; and on the concrete scenario
fetch(None) → 20 items with cursor "abc", fetch("abc") → 0 items, no
cursor, exactly 2 fetch calls are made and exactly 20 items returned. -/
theorem empty_or_no_cursor_terminates (o : Oracle) (s s1 : JikeState) (t t1 : Trace)
    (all : List Nat) (lid : Option String) (fuel : Nat) (page : JikePage)
    (h : get_jike_data o lid s t = (s1, t1, .ok page)) :
    (page.data = [] → get_all_loop o s t all lid (fuel + 1) = (s1, t1, .ok all)) ∧
    (page.lastId = none → page.data ≠ [] →
      get_all_loop o s t all lid (fuel + 1) = (s1, t1, .ok (all ++ page.data))) ∧
    (get_all_jike_data oracleTwoPages jstate0 10 =
      (jstate0, ⟨[("A", none), ("A", some "abc")], 0⟩, .ok (List.range 20)) ∧
      (List.range 20).length = 20) := by
  refine ⟨?_, ?_, by rfl, by rfl⟩
  · intro hnil
    simp [get_all_loop, h, hnil]
  · intro hlid hne
    simp [get_all_loop, h, hlid, truthyStr, hne]

theorem empty_or_no_cursor_terminates_witness :
    get_all_loop oracleTwoPages jstate0
        ⟨[("A", none)], 0⟩ (List.range 20) (some "abc") 9 =
      (jstate0, ⟨[("A", none), ("A", some "abc")], 0⟩, .ok (List.range 20)) := by
  have := empty_or_no_cursor_terminates oracleTwoPages jstate0 jstate0
    ⟨[("A", none)], 0⟩ ⟨[("A", none), ("A", some "abc")], 0⟩
    (List.range 20) (some "abc") 8 ⟨[], none⟩ (by rfl)
  simpa using this.1 rfl

end Jike

namespace Jike

lemma tokenRelated_msgRefreshFailed : tokenRelated msgRefreshFailed = true := by decide
lemma tokenRelated_msgStillInvalid : tokenRelated msgStillInvalid = true := by decide

end Jike

namespace Jike

/-- C1: when a fetch receives a 401 response, exactly one token refresh
is attempted; if the refresh succeeds the same request is retried exactly
once with the new access token and its result is returned as if no
failure had occurred; if the refresh fails, or the retried request again
returns 401, a fatal auth error is raised and the page loop issues no
further fetches for that target within the run. -/
theorem auth_refresh_once_then_fatal (o : Oracle) (s : JikeState) (pg : JikePage) (mp : Nat)
    (h401 : o.dataResp 0 s.access_token none = .resp 401 pg) :
    (get_jike_data o none s Trace.empty).2.1.refreshCalls = 1 ∧
    (∀ na nb pg2, na ≠ "" → nb ≠ "" →
      o.refreshResp 0 = .resp 200 (some na) (some nb) →
      o.dataResp 1 na none = .resp 200 pg2 →
      get_jike_data o none s Trace.empty =
        (⟨na, nb, na, nb⟩, ⟨[(s.access_token, none), (na, none)], 1⟩, .ok pg2)) ∧
    (o.refreshResp 0 = .netErr →
      get_all_jike_data o s (mp + 1) =
        (s, ⟨[(s.access_token, none)], 1⟩, .error msgRefreshFailed)) ∧
    (∀ na nb pg2, na ≠ "" → nb ≠ "" →
      o.refreshResp 0 = .resp 200 (some na) (some nb) →
      o.dataResp 1 na none = .resp 401 pg2 →
      get_all_jike_data o s (mp + 1) =
        (⟨na, nb, na, nb⟩, ⟨[(s.access_token, none), (na, none)], 1⟩, .error msgStillInvalid)) := by
  refine ⟨?_, ?_, ?_, ?_⟩
  · simp only [get_jike_data, Trace.empty, List.length_nil, List.nil_append, h401,
      reduceIte]
    split
    · split
      · rfl
      · split_ifs <;> rfl
    · rfl
  · intro na nb pg2 hna hnb hr hd2
    have hrf : refresh_access_token (o.refreshResp 0) s = (⟨na, nb, na, nb⟩, true) := by
      rw [hr]
      simp [refresh_access_token, truthyStr, hna, hnb]
    simp [get_jike_data, Trace.empty, h401, hrf, hd2]
  · intro hr
    have hrf : refresh_access_token (o.refreshResp 0) s = (s, false) := by
      rw [hr]; rfl
    have hfetch : get_jike_data o none s Trace.empty =
        (s, ⟨[(s.access_token, none)], 1⟩, .authError msgRefreshFailed) := by
      simp [get_jike_data, Trace.empty, h401, hrf]
    simp [get_all_jike_data, get_all_loop, hfetch, tokenRelated_msgRefreshFailed]
  · intro na nb pg2 hna hnb hr hd2
    have hrf : refresh_access_token (o.refreshResp 0) s = (⟨na, nb, na, nb⟩, true) := by
      rw [hr]
      simp [refresh_access_token, truthyStr, hna, hnb]
    have hfetch : get_jike_data o none s Trace.empty =
        (⟨na, nb, na, nb⟩, ⟨[(s.access_token, none), (na, none)], 1⟩,
          .authError msgStillInvalid) := by
      simp [get_jike_data, Trace.empty, h401, hrf, hd2]
    simp [get_all_jike_data, get_all_loop, hfetch, tokenRelated_msgStillInvalid]

end Jike

namespace Jike

theorem auth_refresh_once_then_fatal_witness :
    get_jike_data oracleRefreshOk none jstate0 Trace.empty =
      (⟨"NA", "NR", "NA", "NR"⟩, ⟨[("A", none), ("NA", none)], 1⟩, .ok ⟨[1, 2], none⟩) ∧
    get_all_jike_data oracleRefreshFail jstate0 5 =
      (jstate0, ⟨[("A", none)], 1⟩, .error msgRefreshFailed) ∧
    get_all_jike_data oracleStill401 jstate0 5 =
      (⟨"NA", "NR", "NA", "NR"⟩, ⟨[("A", none), ("NA", none)], 1⟩, .error msgStillInvalid) :=
  ⟨(auth_refresh_once_then_fatal oracleRefreshOk jstate0 ⟨[], none⟩ 4 (by decide)).2.1
      "NA" "NR" ⟨[1, 2], none⟩ (by decide) (by decide) (by decide) (by decide),
   (auth_refresh_once_then_fatal oracleRefreshFail jstate0 ⟨[], none⟩ 4 (by decide)).2.2.1
      (by decide),
   (auth_refresh_once_then_fatal oracleStill401 jstate0 ⟨[], none⟩ 4 (by decide)).2.2.2
      "NA" "NR" ⟨[], none⟩ (by decide) (by decide) (by decide) (by decide)⟩

end Jike

namespace Weibo

/-- `preLoopWait` touches only the counter and the schedule. -/
lemma preLoopWait_clock (pn : Nat) (st : WbState) :
    (preLoopWait pn st).clock = st.clock := by
  unfold preLoopWait
  split
  · rfl
  · split <;> rfl

/-- `preLoopWait` preserves `new_since_date`. -/
lemma preLoopWait_new_since (pn : Nat) (st : WbState) :
    (preLoopWait pn st).new_since_date = st.new_since_date := by
  unfold preLoopWait
  split
  · rfl
  · split <;> rfl

/-- `preLoopWait` preserves the dedup id list. -/
lemma preLoopWait_ids (pn : Nat) (st : WbState) :
    (preLoopWait pn st).weibo_id_list = st.weibo_id_list := by
  unfold preLoopWait
  split
  · rfl
  · split <;> rfl

/-- The page loop never changes `new_since_date`. -/
lemma pageLoop_new_since (ts : TargetScript) (n : Nat) :
    ∀ (fuel page : Nat) (st : WbState) (acc : List (List Nat × List Nat)),
      (pageLoop ts n page fuel st acc).st.new_since_date = st.new_since_date := by
  intro fuel
  induction fuel with
  | zero => intro page st acc; rfl
  | succ f ih =>
    intro page st acc
    simp only [pageLoop]
    split
    · rfl
    · split
      · split
        · rw [ih]
        · rfl
      · split
        · rfl
        · split
          · rw [ih]
          · rfl

/-- The model clock never decreases across the page loop. -/
lemma pageLoop_clock_le (ts : TargetScript) (n : Nat) :
    ∀ (fuel page : Nat) (st : WbState) (acc : List (List Nat × List Nat)),
      st.clock ≤ (pageLoop ts n page fuel st acc).st.clock := by
  intro fuel
  induction fuel with
  | zero => intro page st acc; exact Nat.le_refl _
  | succ f ih =>
    intro page st acc
    simp only [pageLoop]
    split
    · exact Nat.le_succ _
    · split
      · split
        · exact Nat.le_trans (Nat.le_succ _) (ih _ ⟨_, _, _, _, _, st.clock + 1⟩ _)
        · exact Nat.le_succ _
      · split
        · exact Nat.le_succ _
        · split
          · exact Nat.le_trans (Nat.le_succ _) (ih _ ⟨_, _, _, _, _, st.clock + 1⟩ _)
          · exact Nat.le_succ _

end Weibo

namespace Weibo

/-- Case description of `get_weibo_info`: the store is written, and the
commit call made, exactly on the `completed` exit with the commit path
configured; on every other path the store is returned untouched and no
commit call happens. -/
lemma get_weibo_info_spec (cfg : WbConfig) (ts : TargetScript) (st : WbState) (store : Store) :
    ((get_weibo_info cfg ts st store).exit = .completed ∧
      (((get_weibo_info cfg ts st store).commitCall = none ∧
        (get_weibo_info cfg ts st store).store = store) ∨
      (cfg.commitEnabled = true ∧
        (get_weibo_info cfg ts st store).commitCall =
          some (get_weibo_info cfg ts st store).st.new_since_date ∧
        (get_weibo_info cfg ts st store).store =
          update_user_config_file store ts.user_uri
            (get_weibo_info cfg ts st store).st.new_since_date))) ∨
    ((get_weibo_info cfg ts st store).exit ≠ .completed ∧
      (get_weibo_info cfg ts st store).commitCall = none ∧
      (get_weibo_info cfg ts st store).store = store) := by
  unfold get_weibo_info
  split
  · split
    · right; exact ⟨by simp, rfl, rfl⟩
    · next pn heq =>
      dsimp only
      rcases hexit : (pageLoop ts cfg.nsinks 1 pn
          (preLoopWait pn
            { st with clock := st.clock + 1, page_count := st.page_count + 1 }) []).exit
      · simp only [hexit]
        split
        · next hce =>
          left
          simp [hce]
        · left
          simp
      · simp only [hexit]
        right
        simp
      · simp only [hexit]
        right
        simp
  · left; exact ⟨rfl, Or.inl ⟨rfl, rfl⟩⟩

/-- The `TExit` reported by `get_one_user` is `done` exactly when the
inner `get_weibo_info` completed (or translates the failure kind
otherwise), and on every non-`done` exit the commit call is absent and
the store unchanged. -/
lemma get_one_user_no_commit_on_error (cfg : WbConfig) (ts : TargetScript)
    (st : WbState) (store : Store) :
    ((get_one_user cfg ts st store).result.exit ≠ .done →
      (get_one_user cfg ts st store).result.commitCall = none ∧
      (get_one_user cfg ts st store).store = store) ∧
    ((get_one_user cfg ts st store).result.commitCall ≠ none →
      (get_one_user cfg ts st store).result.exit = .done) := by
  unfold get_one_user
  dsimp only
  split
  · have hspec := get_weibo_info_spec cfg ts (initialize_info cfg (get_user_info ts st).1) store
    rcases hspec with ⟨hdone, hcases⟩ | ⟨hne, hnone, hstore⟩
    · constructor
      · intro hx
        exfalso
        apply hx
        simp only [hdone]
      · intro _
        simp only [hdone]
    · constructor
      · intro _
        refine ⟨by simpa using hnone, by simpa using hstore⟩
      · intro hc
        exfalso
        exact hc (by simpa using hnone)
  · exact ⟨fun _ => ⟨rfl, rfl⟩, fun hc => absurd rfl hc⟩

end Weibo

namespace Weibo

/-- C3: when a target's crawl ends with a fatal error mid-loop (failed
user-info fetch, parser exception, or sink exception), the watermark
commit is never invoked and the stored since_date of every target after
the run equals its value before the run; the commit is invoked only when
the loop reaches a terminal, non-error stop. -/
theorem no_commit_on_fatal_error (cfg : WbConfig) (ts : TargetScript)
    (st : WbState) (store : Store) :
    ((get_one_user cfg ts st store).result.exit ≠ .done →
      (get_one_user cfg ts st store).result.commitCall = none ∧
      (get_one_user cfg ts st store).store = store) ∧
    ((get_one_user cfg ts st store).result.commitCall ≠ none →
      (get_one_user cfg ts st store).result.exit = .done) :=
  get_one_user_no_commit_on_error cfg ts st store

theorem no_commit_on_fatal_error_witness :
    ((get_one_user cfgNow tsParserErr stW0 storeW0).result.exit ≠ TExit.done) ∧
    (get_one_user cfgNow tsParserErr stW0 storeW0).result.commitCall = none ∧
    (get_one_user cfgNow tsParserErr stW0 storeW0).store = storeW0 :=
  ⟨by decide, (no_commit_on_fatal_error cfgNow tsParserErr stW0 storeW0).1 (by decide)⟩

end Weibo

namespace Weibo

/-- On a clean completion with the commit path configured, the watermark
committed by `get_weibo_info` is exactly the `new_since_date` the state
entered the loop with — the page loop never recomputes it. -/
lemma get_weibo_info_commit_value (cfg : WbConfig) (ts : TargetScript)
    (st : WbState) (store : Store)
    (hs : ts.since_le_now = true) (hc : cfg.commitEnabled = true)
    (hdone : (get_weibo_info cfg ts st store).exit = .completed) :
    (get_weibo_info cfg ts st store).commitCall = some st.new_since_date ∧
    (get_weibo_info cfg ts st store).store =
      update_user_config_file store ts.user_uri st.new_since_date := by
  unfold get_weibo_info at hdone ⊢
  simp only [hs, reduceIte] at hdone ⊢
  rcases hpn : ts.pageNumResult with pn | _
  case err => simp [hpn] at hdone
  · simp only [hpn] at hdone ⊢
    rcases hexit : (pageLoop ts cfg.nsinks 1 pn
        (preLoopWait pn
          { st with clock := st.clock + 1, page_count := st.page_count + 1 }) []).exit
    · simp only [hexit, hc, reduceIte]
      rw [pageLoop_new_since, preLoopWait_new_since]
      exact ⟨rfl, rfl⟩
    · simp [hexit] at hdone
    · simp [hexit] at hdone

/-- Projections of `get_one_user` through a successful user-info fetch:
commit call and store come from the inner `get_weibo_info`, the reported
exit is `done` iff the loop completed, and the `new_since_date` the loop
starts from resolves "now" at the model time right after the user-info
fetch. -/
lemma get_one_user_ok_proj (cfg : WbConfig) (ts : TargetScript)
    (st : WbState) (store : Store) (hui : ts.userInfoErr = false) :
    (get_one_user cfg ts st store).result.commitCall =
      (get_weibo_info cfg ts
        (initialize_info cfg
          { st with clock := st.clock + 1, page_count := st.page_count + 1 }) store).commitCall ∧
    (get_one_user cfg ts st store).store =
      (get_weibo_info cfg ts
        (initialize_info cfg
          { st with clock := st.clock + 1, page_count := st.page_count + 1 }) store).store ∧
    ((get_one_user cfg ts st store).result.exit = .done ↔
      (get_weibo_info cfg ts
        (initialize_info cfg
          { st with clock := st.clock + 1, page_count := st.page_count + 1 }) store).exit =
        .completed) ∧
    (initialize_info cfg
        ({ st with clock := st.clock + 1, page_count := st.page_count + 1 } :
          WbState)).new_since_date =
      (if cfg.end_date = "now" then nowString (st.clock + 1) else cfg.end_date) ∧
    (get_one_user cfg ts st store).result.dispatches =
      (get_weibo_info cfg ts
        (initialize_info cfg
          { st with clock := st.clock + 1, page_count := st.page_count + 1 }) store).dispatches := by
  have hgui : get_user_info ts st =
      ({ st with clock := st.clock + 1, page_count := st.page_count + 1 }, true) := by
    simp [get_user_info, hui]
  unfold get_one_user
  rw [hgui]
  simp only [reduceIte]
  refine ⟨by simp, by simp, ?_, by simp [initialize_info], by simp⟩
  rcases hexit : (get_weibo_info cfg ts
      (initialize_info cfg
        { st with clock := st.clock + 1, page_count := st.page_count + 1 }) store).exit
  all_goals simp [hexit]

end Weibo

namespace Weibo

/-- C4 counterexample: a clean two-page crawl with `end_date = "now"`
commits the watermark "now@1" — "now" rendered at target-initialization
time (model clock 1, right after the user-info fetch) — while the model
clock at commit time is 4, so the committed value differs from "now"
resolved at commit time, refuting the claim as stated. -/
theorem watermark_commit_time_cex :
    (get_one_user cfgNow tsClean stW0 storeW0).result.commitCall = some (nowString 1) ∧
    (get_one_user cfgNow tsClean stW0 storeW0).st.clock = 4 ∧
    (get_one_user cfgNow tsClean stW0 storeW0).result.commitCall ≠
      some (nowString (get_one_user cfgNow tsClean stW0 storeW0).st.clock) := by
  refine ⟨by decide, by decide, by decide⟩

/-- C4 amended: for every target that completes its fetch loop cleanly
with the commit path configured, the committed watermark equals the
configured `end_date`; when `end_date` is "now", the committed value is
"now" resolved at target-initialization time, before the fetch loop
(`initialize_info` renders it at the clock reached by the user-info
fetch), not at commit time. -/
theorem watermark_commit_value (cfg : WbConfig) (ts : TargetScript)
    (st : WbState) (store : Store)
    (hui : ts.userInfoErr = false) (hs : ts.since_le_now = true)
    (hc : cfg.commitEnabled = true)
    (hdone : (get_one_user cfg ts st store).result.exit = .done) :
    (get_one_user cfg ts st store).result.commitCall =
      some (if cfg.end_date = "now" then nowString (st.clock + 1) else cfg.end_date) ∧
    (get_one_user cfg ts st store).store =
      update_user_config_file store ts.user_uri
        (if cfg.end_date = "now" then nowString (st.clock + 1) else cfg.end_date) := by
  obtain ⟨hcc, hss, hiff, hval, -⟩ := get_one_user_ok_proj cfg ts st store hui
  have hdone2 := hiff.mp hdone
  obtain ⟨h1, h2⟩ := get_weibo_info_commit_value cfg ts
    (initialize_info cfg { st with clock := st.clock + 1, page_count := st.page_count + 1 })
    store hs hc hdone2
  rw [hval] at h1 h2
  exact ⟨hcc.trans h1, hss.trans h2⟩

theorem watermark_commit_value_witness :
    (get_one_user cfgNow tsClean stW0 storeW0).result.commitCall =
      some (if cfgNow.end_date = "now" then nowString (stW0.clock + 1) else cfgNow.end_date) ∧
    (get_one_user cfgNow tsClean stW0 storeW0).store =
      update_user_config_file storeW0 tsClean.user_uri
        (if cfgNow.end_date = "now" then nowString (stW0.clock + 1) else cfgNow.end_date) :=
  watermark_commit_value cfgNow tsClean stW0 storeW0 (by decide) (by decide) (by decide)
    (by decide)

end Weibo

namespace Weibo

/-- Shifted ranges: prepending the offset element merges into one map
over a longer range. -/
lemma range_map_cons (k n : Nat) :
    k :: (List.range n).map (fun i => k + 1 + i) =
      (List.range (n + 1)).map (fun i => k + i) := by
  rw [List.range_succ_eq_map, List.map_cons, List.map_map]
  refine congrArg₂ _ (by omega) (List.map_congr_left ?_)
  intro i _
  simp [Function.comp]
  omega

/-- If the first raising sink has index `j`, the batch reaches exactly
sinks `0 … j` and the dispatch reports the raise. -/
lemma dispatchFrom_first_raise (raises : Nat → Bool) :
    ∀ (j k n : Nat), j < n → (∀ i, i < j → raises (k + i) = false) →
      raises (k + j) = true →
      dispatchFrom raises k n = ((List.range (j + 1)).map (fun i => k + i), true) := by
  intro j
  induction j with
  | zero =>
    intro k n hj hb hr
    match n, hj with
    | n + 1, _ =>
      simp only [dispatchFrom]
      rw [show k + 0 = k from rfl] at hr
      simp [hr, List.range_succ]
  | succ j ih =>
    intro k n hj hb hr
    match n, hj with
    | n + 1, hj =>
      have hk : raises k = false := by
        have := hb 0 (Nat.succ_pos j)
        simpa using this
      simp only [dispatchFrom, hk]
      have hrec := ih (k + 1) n (Nat.lt_of_succ_lt_succ hj)
        (fun i hi => by
          have := hb (i + 1) (Nat.succ_lt_succ hi)
          rwa [show k + (i + 1) = k + 1 + i by omega] at this)
        (by rwa [show k + 1 + j = k + (j + 1) by omega])
      rw [hrec]
      simp only [Bool.false_eq_true, if_false]
      exact congrArg₂ _ (range_map_cons k (j + 1)) rfl

/-- With no raising sink, every sink receives the batch and no raise is
reported. -/
lemma dispatchFrom_no_raise (raises : Nat → Bool) :
    ∀ (n k : Nat), (∀ i, raises i = false) →
      dispatchFrom raises k n = ((List.range n).map (fun i => k + i), false) := by
  intro n
  induction n with
  | zero => intro k h; rfl
  | succ n ih =>
    intro k h
    simp only [dispatchFrom, h k, Bool.false_eq_true, if_false]
    rw [ih (k + 1) h]
    exact congrArg₂ _ (range_map_cons k n) rfl

/-- Maps of the identity-shaped addition collapse. -/
lemma range_map_zero_add (n : Nat) :
    (List.range n).map (fun i => 0 + i) = List.range n := by
  simp

end Weibo

namespace Weibo

/-- C7 counterexample: with two configured sinks and sink 0 raising on
the first batch, the batch reaches only sink 0 — sink 1 never receives
it — and the target's crawl loop is aborted: page 2 of the script is
never fetched (3 fetches total: user info, page count, page 1) and no
commit happens, refuting the claim that one sink's failure is isolated. -/
theorem sink_failure_not_isolated_cex :
    cfgNow.nsinks = 2 ∧
    (get_one_user cfgNow tsSinkRaise stW0 storeW0).result.dispatches = [([7, 8], [0])] ∧
    (get_one_user cfgNow tsSinkRaise stW0 storeW0).result.exit = .sinkAborted ∧
    (get_one_user cfgNow tsSinkRaise stW0 storeW0).result.fetches = 3 ∧
    tsSinkRaise.pages 2 = .ok ⟨[9], true⟩ ∧
    (get_one_user cfgNow tsSinkRaise stW0 storeW0).result.commitCall = none := by
  refine ⟨by decide, by decide, by decide, by decide, by decide, by decide⟩

/-- C7 amended: the dispatch loop hands the batch to sinks in index
order with no per-sink exception handling, so the first raising sink `j`
stops the loop — exactly sinks `0 … j` receive the batch — and the raise
escapes to the target level, aborting that target's crawl with no
watermark commit and the store untouched (sibling targets still run). -/
theorem sink_failure_propagates (cfg : WbConfig) (ts : TargetScript)
    (st : WbState) (store : Store) (raises : Nat → Bool) (n j : Nat)
    (hj : j < n) (hb : ∀ i, i < j → raises i = false) (hr : raises j = true) :
    dispatchFrom raises 0 n = (List.range (j + 1), true) ∧
    ((get_one_user cfg ts st store).result.exit = .sinkAborted →
      (get_one_user cfg ts st store).result.commitCall = none ∧
      (get_one_user cfg ts st store).store = store) := by
  constructor
  · have h1 := dispatchFrom_first_raise raises j 0 n hj
      (fun i hi => by simpa using hb i hi) (by simpa using hr)
    rw [h1]
    exact congrArg₂ _ (range_map_zero_add (j + 1)) rfl
  · intro hx
    refine (get_one_user_no_commit_on_error cfg ts st store).1 ?_
    rw [hx]
    decide

theorem sink_failure_propagates_witness :
    dispatchFrom (tsSinkRaise.sinkRaises 0) 0 2 = (List.range 1, true) ∧
    (get_one_user cfgNow tsSinkRaise stW0 storeW0).result.commitCall = none ∧
    (get_one_user cfgNow tsSinkRaise stW0 storeW0).store = storeW0 :=
  ⟨(sink_failure_propagates cfgNow tsSinkRaise stW0 storeW0 (tsSinkRaise.sinkRaises 0) 2 0
      (by decide) (fun i hi => absurd hi (Nat.not_lt_zero i)) (by decide)).1,
   (sink_failure_propagates cfgNow tsSinkRaise stW0 storeW0 (tsSinkRaise.sinkRaises 0) 2 0
      (by decide) (fun i hi => absurd hi (Nat.not_lt_zero i)) (by decide)).2 (by decide)⟩

end Weibo

namespace Weibo

/-- The result of a target run carries that target's uri. -/
lemma get_one_user_uri (cfg : WbConfig) (ts : TargetScript) (st : WbState) (store : Store) :
    (get_one_user cfg ts st store).result.uri = ts.user_uri := by
  unfold get_one_user
  dsimp only
  split <;> rfl

/-- The clock never decreases across `get_weibo_info`. -/
lemma get_weibo_info_clock_le (cfg : WbConfig) (ts : TargetScript)
    (st : WbState) (store : Store) :
    st.clock ≤ (get_weibo_info cfg ts st store).st.clock := by
  unfold get_weibo_info
  split
  · split
    · exact Nat.le_succ _
    · next pn heq =>
      rcases hexit : (pageLoop ts cfg.nsinks 1 pn
          (preLoopWait pn
            { st with clock := st.clock + 1, page_count := st.page_count + 1 }) []).exit
      all_goals {
        simp only [hexit]
        have hle := pageLoop_clock_le ts cfg.nsinks pn 1
          (preLoopWait pn
            { st with clock := st.clock + 1, page_count := st.page_count + 1 }) []
        rw [preLoopWait_clock] at hle
        first
          | (split
             · exact Nat.le_trans (Nat.le_succ _) hle
             · exact Nat.le_trans (Nat.le_succ _) hle)
          | exact Nat.le_trans (Nat.le_succ _) hle
      }
  · exact Nat.le_refl _

/-- Every target run performs at least one remote fetch (the user-info
request is issued before anything can fail). -/
lemma get_one_user_fetches (cfg : WbConfig) (ts : TargetScript)
    (st : WbState) (store : Store) :
    1 ≤ (get_one_user cfg ts st store).result.fetches := by
  unfold get_one_user
  have hclk : (get_user_info ts st).1.clock = st.clock + 1 := by
    unfold get_user_info
    split <;> rfl
  dsimp only
  split
  · have hle := get_weibo_info_clock_le cfg ts
      (initialize_info cfg (get_user_info ts st).1) store
    have hinit : (initialize_info cfg (get_user_info ts st).1).clock =
        (get_user_info ts st).1.clock := rfl
    rw [hinit, hclk] at hle
    simp only
    omega
  · simp only [hclk]
    omega

/-- C8: crawling a list of targets produces exactly one result per
target, in order; a fatal error while crawling one target aborts only
that target — every target in the list, whatever happened before it, is
still processed and performs at least its user-info fetch — and the
run-level iteration is total (every per-target exception is absorbed by
`get_one_user`'s catch-all handler, leaving `start` nothing to raise). -/
theorem target_failure_contained (cfg : WbConfig) (targets : List TargetScript)
    (st : WbState) (store : Store) :
    (runTargets cfg targets st store).results.length = targets.length ∧
    (∀ i (h1 : i < (runTargets cfg targets st store).results.length)
        (h2 : i < targets.length),
      ((runTargets cfg targets st store).results.get ⟨i, h1⟩).uri =
        (targets.get ⟨i, h2⟩).user_uri ∧
      1 ≤ ((runTargets cfg targets st store).results.get ⟨i, h1⟩).fetches) := by
  induction targets generalizing st store with
  | nil => exact ⟨rfl, fun i h1 h2 => absurd h2 (Nat.not_lt_zero i)⟩
  | cons t rest ih =>
    refine ⟨?_, ?_⟩
    · simp only [runTargets, List.length_cons]
      exact congrArg (· + 1) (ih _ _).1
    · intro i h1 h2
      match i with
      | 0 => exact ⟨get_one_user_uri cfg t st store, get_one_user_fetches cfg t st store⟩
      | i + 1 =>
        exact (ih (get_one_user cfg t st store).st (get_one_user cfg t st store).store).2 i
          (by simpa [runTargets] using Nat.lt_of_succ_lt_succ h1)
          (Nat.lt_of_succ_lt_succ h2)

theorem target_failure_contained_witness :
    (runTargets cfgNow [tsUserErr, tsClean] stW0 storeW0).results.length = 2 ∧
    ((runTargets cfgNow [tsUserErr, tsClean] stW0 storeW0).results.get
        ⟨1, by decide⟩).uri = tsClean.user_uri ∧
    1 ≤ ((runTargets cfgNow [tsUserErr, tsClean] stW0 storeW0).results.get
        ⟨1, by decide⟩).fetches ∧
    ((runTargets cfgNow [tsUserErr, tsClean] stW0 storeW0).results.get
        ⟨0, by decide⟩).exit = TExit.userInfoFailed :=
  ⟨(target_failure_contained cfgNow [tsUserErr, tsClean] stW0 storeW0).1,
   ((target_failure_contained cfgNow [tsUserErr, tsClean] stW0 storeW0).2 1
      (by decide) (by decide)).1,
   ((target_failure_contained cfgNow [tsUserErr, tsClean] stW0 storeW0).2 1
      (by decide) (by decide)).2,
   by decide⟩

end Weibo

namespace Weibo

/-- The dispatched batches of `get_weibo_info` are those of its page
loop, whichever way the loop ends. -/
lemma get_weibo_info_dispatches (cfg : WbConfig) (ts : TargetScript)
    (st : WbState) (store : Store) (pn : Nat)
    (hs : ts.since_le_now = true) (hpn : ts.pageNumResult = .ok pn) :
    (get_weibo_info cfg ts st store).dispatches =
      (pageLoop ts cfg.nsinks 1 pn
        (preLoopWait pn
          { st with clock := st.clock + 1, page_count := st.page_count + 1 }) []).dispatches := by
  unfold get_weibo_info
  simp only [hs, reduceIte, hpn]
  rcases hexit : (pageLoop ts cfg.nsinks 1 pn
      (preLoopWait pn
        { st with clock := st.clock + 1, page_count := st.page_count + 1 }) []).exit
  · simp only [hexit]
    split <;> rfl
  · simp only [hexit]
  · simp only [hexit]

/-- Batches already accumulated stay a prefix of the loop's final batch
list. -/
lemma pageLoop_keeps_acc (ts : TargetScript) (n : Nat) :
    ∀ (fuel page : Nat) (st : WbState) (acc : List (List Nat × List Nat)),
      acc <+: (pageLoop ts n page fuel st acc).dispatches := by
  intro fuel
  induction fuel with
  | zero => intro page st acc; exact ⟨[], List.append_nil acc⟩
  | succ f ih =>
    intro page st acc
    simp only [pageLoop]
    split
    · exact ⟨[], List.append_nil acc⟩
    · split
      · split
        · exact ih _ _ _
        · exact ⟨[], List.append_nil acc⟩
      · split
        · exact ⟨_, rfl⟩
        · split
          · exact List.IsPrefix.trans ⟨_, rfl⟩ (ih _ _ _)
          · exact ⟨_, rfl⟩

/-- With an empty seen-set and no raising sink, the first page's single
record reaches every configured sink and heads the dispatched batches. -/
lemma pageLoop_first_batch (ts : TargetScript) (n m x : Nat) (tc : Bool) (st : WbState)
    (hids : st.weibo_id_list = []) (hpage : ts.pages 1 = .ok ⟨[x], tc⟩)
    (hsr : ∀ k, ts.sinkRaises 0 k = false) :
    (pageLoop ts n 1 (m + 1) st []).dispatches.head? = some ([x], List.range n) := by
  have hw : write_weibo ts.sinkRaises n 0 = (List.range n, false) := by
    unfold write_weibo
    rw [dispatchFrom_no_raise (ts.sinkRaises 0) n 0 hsr, range_map_zero_add]
  have hgp : get_one_page ⟨[x], tc⟩ ([] : List Nat) = ([x], [x]) := rfl
  simp only [pageLoop, hpage, hids, hgp, List.length_nil, hw, List.isEmpty_cons,
    Bool.false_eq_true, if_false, List.nil_append, reduceIte]
  rcases tc with _ | _
  · rfl
  · simp only [reduceIte]
    obtain ⟨t, ht⟩ := pageLoop_keeps_acc ts n m _ _ [([x], List.range n)]
    rw [← ht]
    rfl

/-- C10: at the start of every target's crawl `initialize_info` resets
the duplicate-id list to empty and the fetched-item counter to zero, so
the dedup set is scoped per target: whatever ids the spider state carries
from earlier targets, a record with any such id fetched on the first page
of a later target is still dispatched (to every configured sink). -/
theorem dedup_reset_per_target (cfg : WbConfig) (st : WbState) (x : Nat) :
    ((initialize_info cfg st).weibo_id_list = [] ∧ (initialize_info cfg st).got_num = 0) ∧
    (∀ (ts : TargetScript) (store : Store) (pn : Nat) (tc : Bool),
      ts.userInfoErr = false → ts.since_le_now = true →
      ts.pageNumResult = .ok pn → pn ≠ 0 →
      ts.pages 1 = .ok ⟨[x], tc⟩ →
      (∀ k, ts.sinkRaises 0 k = false) →
      (get_one_user cfg ts st store).result.dispatches.head? =
        some ([x], List.range cfg.nsinks)) := by
  refine ⟨⟨rfl, rfl⟩, ?_⟩
  intro ts store pn tc hui hs hpn hpn0 hpage hsr
  obtain ⟨-, -, -, -, hdisp⟩ := get_one_user_ok_proj cfg ts st store hui
  rw [hdisp, get_weibo_info_dispatches cfg ts _ store pn hs hpn]
  obtain ⟨m, rfl⟩ : ∃ m, pn = m + 1 := ⟨pn - 1, by omega⟩
  exact pageLoop_first_batch ts cfg.nsinks m x tc _ (by rw [preLoopWait_ids]; rfl) hpage hsr

theorem dedup_reset_per_target_witness :
    5 ∈ (get_one_user cfgNow tsDedupA stW0 storeW0).st.weibo_id_list ∧
    (get_one_user cfgNow tsDedupB
        (get_one_user cfgNow tsDedupA stW0 storeW0).st storeW0).result.dispatches.head? =
      some ([5], List.range 2) :=
  ⟨by decide,
   (dedup_reset_per_target cfgNow (get_one_user cfgNow tsDedupA stW0 storeW0).st 5).2
      tsDedupB storeW0 1 false (by decide) (by decide) (by decide) (by decide) (by decide)
      (fun k => rfl)⟩

end Weibo
